import Mathlib

/-!
Verification development for the Thumbnail Viewer widget
(`src/thumbnailViewer.js`): a shallow embedding of the scanner's label
derivation, the overlay caption construction, the overlay lifecycle
state machine (`display` / `clearActiveElements` and the navigation
handlers), and the layout function `style`, together with theorems about
the claims of the specification.

Strings are modelled as `List Char`.  JavaScript numbers are modelled by
`JsNum` (a rational together with `NaN` and the two infinities), which is
enough to express the `isNaN` guards and the arithmetic the layout code
performs.
-/

namespace ThumbnailViewer

/-! ## Strings: percent decoding, label and caption derivation -/

/-- Hexadecimal digit value of a character, as used by percent decoding. -/
def hexVal (c : Char) : Option Nat :=
  if '0' ≤ c ∧ c ≤ '9' then some (c.toNat - '0'.toNat)
  else if 'a' ≤ c ∧ c ≤ 'f' then some (c.toNat - 'a'.toNat + 10)
  else if 'A' ≤ c ∧ c ≤ 'F' then some (c.toNat - 'A'.toNat + 10)
  else none

/-- Model of the JavaScript builtin `decodeURIComponent`, restricted to
single-byte (ASCII) percent escapes: each `%hh` triple with two hex digits
is replaced by the character with code `hh`; other characters are kept.
(The builtin additionally performs UTF-8 multi-byte decoding and throws on
malformed escapes; the code paths verified here only ever decode ASCII
escapes such as `%20`.) -/
def decodeURIComponent : List Char → List Char
  | [] => []
  | '%' :: h1 :: h2 :: rest =>
    match hexVal h1, hexVal h2 with
    | some a, some b => Char.ofNat (16 * a + b) :: decodeURIComponent rest
    | _, _ => '%' :: decodeURIComponent (h1 :: h2 :: rest)
  | c :: rest => c :: decodeURIComponent rest

/-- `url.endsWith('/') ? url.slice(0, -1) : url` (scan loop, line 119). -/
def stripTrailingSlash (url : List Char) : List Char :=
  if url.getLast? = some '/' then url.dropLast else url

/-- `url.substring(url.lastIndexOf('/') + 1)`: the suffix after the last
`'/'`, or the whole string when it contains no `'/'`. -/
def afterLastSlash (url : List Char) : List Char :=
  (url.reverse.takeWhile (fun c => c ≠ '/')).reverse

/-- A thumbnail anchor element as the script sees it: the raw `href`
attribute (`getAttribute('href')`, `none` when absent), the resolved
`element.href` property, and the contained `<img>` (if any) with its
`alt` text. -/
structure Thumb where
  attrHref : Option (List Char)
  resolvedHref : List Char
  hasImg : Bool
  imgAlt : List Char
deriving DecidableEq, Repr

/-- The scan loop's label derivation (lines 112-122): prefer the contained
image's non-empty `alt`; otherwise, if the `href` attribute is a non-empty
string, strip a trailing slash, take the segment after the last `'/'` and
percent-decode it; otherwise the label stays empty. -/
def scanLabelName (t : Thumb) : List Char :=
  if t.hasImg ∧ t.imgAlt ≠ [] then t.imgAlt
  else
    match t.attrHref with
    | some url =>
      if url ≠ [] then decodeURIComponent (afterLastSlash (stripTrailingSlash url))
      else []
    | none => []

/-- `getCaption` (lines 362-375), reduced to the text it puts in the
figcaption: the `alt` when truthy (present and non-empty), else the
percent-decoded suffix of the url after the last `'/'` — with no
trailing-slash stripping. -/
def captionText (url : List Char) (alt : Option (List Char)) : List Char :=
  match alt with
  | some a => if a ≠ [] then a else decodeURIComponent (afterLastSlash url)
  | none => decodeURIComponent (afterLastSlash url)

/-! ## The overlay subtree built by `display` -/

/-- Kinds of nodes created for the overlay subtree. -/
inductive NodeKind
  | overall | figure | image | caption | close | prevCtrl | nextCtrl
deriving DecidableEq, Repr

/-- The overlay subtree a `display(index)` call constructs and mounts
(lines 187-193 together with `getPrev`, `getNext` and `mount`):
`getPrev` returns a control iff `index > 0`, `getNext` iff
`index < els.length - 1`, and `mount` appends figure, then the optional
previous control, then the optional next control, to the overall node. -/
structure BuiltOverlay where
  overallChildren : List NodeKind
  figureChildren : List NodeKind
  imgSrc : List Char
  captionHTML : List Char
deriving DecidableEq, Repr

/-- Element construction of `display` (lines 179-193 plus `mount`,
lines 429-436), for `n` scanned thumbnails, index `i` and thumbnail `t`.
The `alt` variable is `undefined` exactly when the anchor contains no
image (lines 181-185). -/
def buildOverlay (n : Nat) (i : Int) (t : Thumb) : BuiltOverlay :=
  let alt : Option (List Char) := if t.hasImg then some t.imgAlt else none
  let hasPrev : Bool := 0 < i
  let hasNext : Bool := i < (n : Int) - 1
  { overallChildren :=
      [NodeKind.figure]
        ++ (if hasPrev then [NodeKind.prevCtrl] else [])
        ++ (if hasNext then [NodeKind.nextCtrl] else [])
  , figureChildren := [NodeKind.image, NodeKind.caption, NodeKind.close]
  , imgSrc := t.resolvedHref
  , captionHTML := captionText t.resolvedHref alt }

/-! ## JavaScript numbers -/

/-- A JavaScript number, as far as the layout code distinguishes them:
a finite (rational) value, `NaN`, or one of the two infinities. -/
inductive JsNum
  | num (q : ℚ)
  | nan
  | inf
  | ninf
deriving DecidableEq, Repr

namespace JsNum

/-- `isNaN(x)`. -/
def isNaN : JsNum → Bool
  | nan => true
  | _ => false

/-- A value is finite when it is neither `NaN` nor infinite. -/
def isFinite : JsNum → Bool
  | num _ => true
  | _ => false

/-- JavaScript truthiness of a number: everything except `0` and `NaN`. -/
def truthy : JsNum → Bool
  | num q => q ≠ 0
  | nan => false
  | _ => true

/-- Subtraction with IEEE-style propagation of `NaN` and infinities. -/
def sub : JsNum → JsNum → JsNum
  | num a, num b => num (a - b)
  | nan, _ => nan
  | _, nan => nan
  | inf, inf => nan
  | inf, _ => inf
  | ninf, ninf => nan
  | ninf, _ => ninf
  | num _, inf => ninf
  | num _, ninf => inf

/-- Multiplication with IEEE-style propagation of `NaN` and infinities. -/
def mul : JsNum → JsNum → JsNum
  | num a, num b => num (a * b)
  | nan, _ => nan
  | _, nan => nan
  | inf, num b => if 0 < b then inf else if b < 0 then ninf else nan
  | num a, inf => if 0 < a then inf else if a < 0 then ninf else nan
  | ninf, num b => if 0 < b then ninf else if b < 0 then inf else nan
  | num a, ninf => if 0 < a then ninf else if a < 0 then inf else nan
  | inf, inf => inf
  | inf, ninf => ninf
  | ninf, inf => ninf
  | ninf, ninf => inf

/-- Division: `x / 0` is `NaN` for `x = 0` and a signed infinity otherwise;
finite over infinite is `0`; infinite over infinite is `NaN`. -/
def div : JsNum → JsNum → JsNum
  | num a, num b =>
    if b = 0 then (if a = 0 then nan else if 0 < a then inf else ninf)
    else num (a / b)
  | nan, _ => nan
  | _, nan => nan
  | num _, inf => num 0
  | num _, ninf => num 0
  | inf, num b => if 0 ≤ b then inf else ninf
  | ninf, num b => if 0 ≤ b then ninf else inf
  | inf, _ => nan
  | ninf, _ => nan

/-- The `<` comparison; any comparison involving `NaN` is false. -/
def lt : JsNum → JsNum → Bool
  | num a, num b => a < b
  | nan, _ => false
  | _, nan => false
  | ninf, ninf => false
  | ninf, _ => true
  | _, ninf => false
  | inf, _ => false
  | num _, inf => true

end JsNum

/-! ## The layout function `style` (lines 442-565)

`style` only reads its inputs (viewport metrics, device pixel ratio,
the image's intrinsic size, the configuration flags) and writes style
properties; we model one invocation as the list of property assignments
it performs, in program order, and separately the effect of applying
such a list to a style store.  (The reads of `image.clientWidth` /
`image.clientHeight` into two local variables, lines 514-515, are dead:
the locals are never used.) -/

/-- The inputs one `style` invocation samples. -/
structure LayoutEnv where
  innerWidth : JsNum
  innerHeight : JsNum
  devicePixelRatio : JsNum
  fitToScreen : Bool
  showFilenames : Bool
  naturalWidth : JsNum
  naturalHeight : JsNum
deriving DecidableEq, Repr

/-- `var widthFactor = 0.8` (line 25). -/
def widthFactor : ℚ := 4 / 5

/-- `var heightFactor = 0.8` (line 26). -/
def heightFactor : ℚ := 4 / 5

/-- `var topOffset = 1.0` (line 39). -/
def topOffset : ℚ := 1

/-- A style value: a number with `px` appended, a bare number, a
`scale(z)` transform, a `scale(z) translateY(-50%)` transform, or a plain
string. -/
inductive StyleVal
  | px (v : JsNum)
  | num (v : JsNum)
  | scale (v : JsNum)
  | scaleTranslate (v : JsNum)
  | str (s : String)
deriving DecidableEq, Repr

/-- The numeric payload of a style value, when it has one. -/
def StyleVal.numeric : StyleVal → Option JsNum
  | px v => some v
  | num v => some v
  | scale v => some v
  | scaleTranslate v => some v
  | str _ => none

/-- One style-property assignment performed by `style`. -/
structure SEntry where
  elem : NodeKind
  prop : String
  val : StyleVal
deriving DecidableEq, Repr

/-- True when the entry assigns a finite value (or is not numeric at all). -/
def SEntry.finiteNum (e : SEntry) : Bool :=
  match e.val.numeric with
  | some v => v.isFinite
  | none => true

/-- True when the entry does not assign `NaN`. -/
def SEntry.notNaN (e : SEntry) : Bool :=
  match e.val.numeric with
  | some v => !v.isNaN
  | none => true

/-- `var zoom = window.devicePixelRatio || 1` (line 453). -/
def zoomOf (env : LayoutEnv) : JsNum :=
  if env.devicePixelRatio.truthy then env.devicePixelRatio else JsNum.num 1

/-- `var invZoom = 1 / zoom` (line 454). -/
def invZoomOf (env : LayoutEnv) : JsNum :=
  JsNum.div (JsNum.num 1) (zoomOf env)

/-- `var availableHeight = clientHeight - reservedHeight` (line 483,
with `reservedHeight = 80`). -/
def availableHeightOf (env : LayoutEnv) : JsNum :=
  env.innerHeight.sub (JsNum.num 80)

/-- Assignments to the overall node (lines 460-471): the height is
guarded by `!isNaN(clientHeight)`. -/
def overallChunk (env : LayoutEnv) : List SEntry :=
  (if env.innerHeight.isNaN = false
    then [⟨NodeKind.overall, "height", StyleVal.px env.innerHeight⟩] else [])
  ++ [⟨NodeKind.overall, "position", StyleVal.str "fixed"⟩,
      ⟨NodeKind.overall, "margin", StyleVal.num (JsNum.num 0)⟩,
      ⟨NodeKind.overall, "top", StyleVal.num (JsNum.num 0)⟩,
      ⟨NodeKind.overall, "left", StyleVal.num (JsNum.num 0)⟩,
      ⟨NodeKind.overall, "width", StyleVal.str "100%"⟩,
      ⟨NodeKind.overall, "display", StyleVal.str "flex"⟩,
      ⟨NodeKind.overall, "justifyContent", StyleVal.str "center"⟩,
      ⟨NodeKind.overall, "alignItems", StyleVal.str "center"⟩]

/-- Assignments to the image (and, in fit-to-screen mode, two to the
figure), lines 479-512.  In fit-to-screen mode the `availableHeight`
derived values are applied with no finiteness guard; in bounded mode the
two max values are guarded by `!isNaN`. -/
def imageChunk (env : LayoutEnv) : List SEntry :=
  if env.fitToScreen then
    let availableHeight := availableHeightOf env
    let imgRatio :=
      if env.naturalWidth.truthy ∧ env.naturalHeight.truthy
        then env.naturalWidth.div env.naturalHeight else JsNum.num 0
    let screenRatio :=
      if JsNum.lt (JsNum.num 0) availableHeight
        then env.innerWidth.div availableHeight else JsNum.num 0
    (if JsNum.lt screenRatio imgRatio then
        [⟨NodeKind.image, "width", StyleVal.str "100%"⟩,
         ⟨NodeKind.image, "height", StyleVal.str "auto"⟩]
      else
        [⟨NodeKind.image, "width", StyleVal.str "auto"⟩,
         ⟨NodeKind.image, "height", StyleVal.px availableHeight⟩])
    ++ [⟨NodeKind.image, "maxWidth", StyleVal.str "100%"⟩,
        ⟨NodeKind.image, "maxHeight", StyleVal.px availableHeight⟩,
        ⟨NodeKind.image, "objectFit", StyleVal.str "contain"⟩,
        ⟨NodeKind.figure, "maxWidth", StyleVal.str "100%"⟩,
        ⟨NodeKind.figure, "maxHeight", StyleVal.px availableHeight⟩]
  else
    [⟨NodeKind.image, "width", StyleVal.str ""⟩,
     ⟨NodeKind.image, "height", StyleVal.str ""⟩]
    ++ (if env.innerWidth.isNaN = false
        then [⟨NodeKind.image, "maxWidth",
                StyleVal.px (env.innerWidth.mul (JsNum.num widthFactor))⟩] else [])
    ++ (if env.innerHeight.isNaN = false
        then [⟨NodeKind.image, "maxHeight",
                StyleVal.px (env.innerHeight.mul (JsNum.num heightFactor))⟩] else [])

/-- Assignments to the figure (lines 519-531); the `topOffset` branch is
dead because `topOffset` is the constant `1.0`. -/
def figureChunk (env : LayoutEnv) : List SEntry :=
  [⟨NodeKind.figure, "margin", StyleVal.num (JsNum.num 0)⟩,
   ⟨NodeKind.figure, "position", StyleVal.str "relative"⟩,
   ⟨NodeKind.figure, "display", StyleVal.str "inline-block"⟩,
   ⟨NodeKind.figure, "width", StyleVal.str "auto"⟩,
   ⟨NodeKind.figure, "height", StyleVal.str "auto"⟩]
  ++ (if topOffset ≠ 1 then
        [⟨NodeKind.figure, "top",
          StyleVal.px ((env.innerHeight.div (JsNum.num 2)).mul
            (JsNum.num (topOffset - 1)))⟩]
      else [])

/-- Assignments to the close control (lines 535-539). -/
def closeChunk (env : LayoutEnv) : List SEntry :=
  [⟨NodeKind.close, "position", StyleVal.str "absolute"⟩,
   ⟨NodeKind.close, "top", StyleVal.num (JsNum.num 0)⟩,
   ⟨NodeKind.close, "right", StyleVal.num (JsNum.num 0)⟩,
   ⟨NodeKind.close, "transform", StyleVal.scale (invZoomOf env)⟩,
   ⟨NodeKind.close, "transformOrigin", StyleVal.str "top right"⟩]

/-- Assignments to the caption (lines 544-545). -/
def captionChunk (env : LayoutEnv) : List SEntry :=
  [⟨NodeKind.caption, "--inv-zoom", StyleVal.num (invZoomOf env)⟩,
   ⟨NodeKind.caption, "display",
     StyleVal.str (if env.showFilenames then "" else "none")⟩]

/-- Assignments to the previous control when it exists (lines 549-556). -/
def prevChunk (env : LayoutEnv) (hasPrev : Bool) : List SEntry :=
  if hasPrev then
    [⟨NodeKind.prevCtrl, "position", StyleVal.str "absolute"⟩,
     ⟨NodeKind.prevCtrl, "top", StyleVal.str "50%"⟩,
     ⟨NodeKind.prevCtrl, "left",
       StyleVal.px ((JsNum.num 20).mul (invZoomOf env))⟩,
     ⟨NodeKind.prevCtrl, "transform", StyleVal.scaleTranslate (invZoomOf env)⟩,
     ⟨NodeKind.prevCtrl, "transformOrigin", StyleVal.str "left center"⟩,
     ⟨NodeKind.prevCtrl, "marginTop", StyleVal.num (JsNum.num 0)⟩]
  else []

/-- Assignments to the next control when it exists (lines 557-564). -/
def nextChunk (env : LayoutEnv) (hasNext : Bool) : List SEntry :=
  if hasNext then
    [⟨NodeKind.nextCtrl, "position", StyleVal.str "absolute"⟩,
     ⟨NodeKind.nextCtrl, "top", StyleVal.str "50%"⟩,
     ⟨NodeKind.nextCtrl, "right",
       StyleVal.px ((JsNum.num 20).mul (invZoomOf env))⟩,
     ⟨NodeKind.nextCtrl, "transform", StyleVal.scaleTranslate (invZoomOf env)⟩,
     ⟨NodeKind.nextCtrl, "transformOrigin", StyleVal.str "right center"⟩,
     ⟨NodeKind.nextCtrl, "marginTop", StyleVal.num (JsNum.num 0)⟩]
  else []

/-- One invocation of `style` (lines 442-565) as its ordered list of
style-property assignments, for a given environment and presence of the
previous/next controls. -/
def styleTrace (env : LayoutEnv) (hasPrev hasNext : Bool) : List SEntry :=
  overallChunk env ++ imageChunk env ++ figureChunk env
    ++ closeChunk env ++ captionChunk env
    ++ prevChunk env hasPrev ++ nextChunk env hasNext

/-- A store of applied style properties, one slot per node and property. -/
def StyleMap : Type := NodeKind × String → Option StyleVal

/-- Applying a single assignment to the store. -/
def applyEntry (σ : StyleMap) (e : SEntry) : StyleMap :=
  fun k => if k = (e.elem, e.prop) then some e.val else σ k

/-- Applying a whole invocation's assignments, in order. -/
def applyTrace (tr : List SEntry) (σ : StyleMap) : StyleMap :=
  tr.foldl applyEntry σ

/-! ## The overlay lifecycle state machine

The mutable state the script keeps: the overlay nodes currently appended
to `document.body`, the `activeElements` array, `currentResizeHandler`,
and the listeners registered on `window`.  Nodes and handler closures are
identified by freshly allocated numeric ids (`nextId`); the keydown/wheel
listener entries also record the thumbnail index their closure captured.
The `_cleanupNav` property stored on each overlay node (line 259) is the
`cleanupNav` association from overlay node id to its pair of navigation
handler ids. -/

structure VState where
  attached : List Nat
  activeElements : List Nat
  currentResizeHandler : Option Nat
  resizeListeners : List Nat
  keydownListeners : List (Nat × Int)
  wheelListeners : List (Nat × Int)
  cleanupNav : List (Nat × Nat × Nat)
  nextId : Nat
deriving DecidableEq, Repr

/-- The state right after initialization: nothing attached, no listeners. -/
def initState : VState :=
  { attached := [], activeElements := [], currentResizeHandler := none
  , resizeListeners := [], keydownListeners := [], wheelListeners := []
  , cleanupNav := [], nextId := 0 }

/-- Primitive observable actions of the lifecycle code, in the order the
code performs them: attaching / detaching an overlay node on
`document.body`, and adding / removing `window` or image listeners. -/
inductive LKind
  | resize | keydown | wheel | load
deriving DecidableEq, Repr

inductive Action
  | attachNode (id : Nat)
  | detachNode (id : Nat)
  | addWindowListener (k : LKind) (h : Nat)
  | removeWindowListener (k : LKind) (h : Nat)
  | addImageListener (k : LKind) (h : Nat)
deriving DecidableEq, Repr

/-- `overall._cleanupNav` lookup: the navigation handler ids stored on an
overlay node, if any. -/
def lookupCleanup : List (Nat × Nat × Nat) → Nat → Option (Nat × Nat)
  | [], _ => none
  | (o, k, w) :: rest, el => if o = el then some (k, w) else lookupCleanup rest el

/-- `window.removeEventListener` on a handler: drops the first
registration of that handler. -/
def eraseHandler : List (Nat × Int) → Nat → List (Nat × Int)
  | [], _ => []
  | (h, i) :: rest, x => if h = x then rest else (h, i) :: eraseHandler rest x

/-- One iteration of the loop in `clearActiveElements` (lines 572-576):
`if (el._cleanupNav) el._cleanupNav();` removes the node's keydown and
wheel listeners, then `document.body.removeChild(el)` detaches the node. -/
def removeOne (s : VState) (el : Nat) : VState × List Action :=
  match lookupCleanup s.cleanupNav el with
  | some (k, w) =>
    ({ s with keydownListeners := eraseHandler s.keydownListeners k
            , wheelListeners := eraseHandler s.wheelListeners w
            , attached := s.attached.erase el },
     [Action.removeWindowListener LKind.keydown k,
      Action.removeWindowListener LKind.wheel w,
      Action.detachNode el])
  | none =>
    ({ s with attached := s.attached.erase el }, [Action.detachNode el])

/-- The loop over `activeElements`. -/
def clearLoop (s : VState) : List Nat → VState × List Action
  | [] => (s, [])
  | el :: rest =>
    let r1 := removeOne s el
    let r2 := clearLoop r1.1 rest
    (r2.1, r1.2 ++ r2.2)

/-- `clearActiveElements` (lines 571-583): run the loop over the current
`activeElements`, reset the array, then remove `currentResizeHandler`
from `window` when set. -/
def clearActiveElements (s : VState) : VState × List Action :=
  let r1 := clearLoop s s.activeElements
  let s2 := { r1.1 with activeElements := [] }
  match s2.currentResizeHandler with
  | some r =>
    ({ s2 with resizeListeners := s2.resizeListeners.erase r
             , currentResizeHandler := none },
     r1.2 ++ [Action.removeWindowListener LKind.resize r])
  | none => (s2, r1.2)

/-- A thrown JavaScript exception; the only one the lifecycle code can
raise is the `TypeError` from reading `.href` off `undefined`. -/
inductive JsError
  | typeError
deriving DecidableEq, Repr

/-- The result of one `display(index)` call: the state when it returns
(or throws), the observable actions it performed, the exception if one
was thrown, and the overlay subtree it built. -/
structure DisplayResult where
  state : VState
  trace : List Action
  error : Option JsError
  built : Option BuiltOverlay
deriving DecidableEq, Repr

/-- `els[index]`: indexed access on the scanned collection, `undefined`
(`none`) for any index outside `0 .. els.length - 1`. -/
def elsGet (thumbs : List Thumb) (i : Int) : Option Thumb :=
  if 0 ≤ i then thumbs.get? i.toNat else none

/-- `display(index)` (lines 178-263).  With an out-of-range index,
`els[index]` is `undefined` and line 180 (`element.href`) throws a
`TypeError` before any state is mutated.  Otherwise, in program order:
build the subtree (modelled by `buildOverlay`), mount and hide it, append
the overall node to `document.body` (line 212), run `clearActiveElements`
(line 215), push the node onto `activeElements` (line 217), restyle
(no lifecycle-state effect), register the image-load listener (line 219),
set and register the resize handler (lines 222-223), show the node, and
register the keydown and wheel navigation listeners (lines 255-256),
storing their cleanup on the node (line 259).  The global
`window.thumbnailViewerReStyle` hook (line 202) touches none of the
tracked state and is omitted. -/
def display (thumbs : List Thumb) (i : Int) (s : VState) : DisplayResult :=
  match elsGet thumbs i with
  | none => { state := s, trace := [], error := some JsError.typeError, built := none }
  | some t =>
    let b := buildOverlay thumbs.length i t
    let oId := s.nextId
    let rId := s.nextId + 1
    let kId := s.nextId + 2
    let wId := s.nextId + 3
    let s0 := { s with attached := s.attached ++ [oId], nextId := s.nextId + 4 }
    let r1 := clearActiveElements s0
    let s2 := { r1.1 with activeElements := r1.1.activeElements ++ [oId] }
    let s3 := { s2 with currentResizeHandler := some rId
                      , resizeListeners := s2.resizeListeners ++ [rId] }
    let s4 := { s3 with keydownListeners := s3.keydownListeners ++ [(kId, i)]
                      , wheelListeners := s3.wheelListeners ++ [(wId, i)]
                      , cleanupNav := (oId, kId, wId) :: s3.cleanupNav }
    { state := s4
    , trace := [Action.attachNode oId] ++ r1.2
        ++ [Action.addImageListener LKind.load rId,
            Action.addWindowListener LKind.resize rId,
            Action.addWindowListener LKind.keydown kId,
            Action.addWindowListener LKind.wheel wId]
    , error := none
    , built := some b }

/-- The key codes `handleKeyDown` distinguishes. -/
inductive KeyCode
  | pageUp | arrowLeft | pageDown | arrowRight | escape | other
deriving DecidableEq, Repr

/-- `handleKeyDown` (lines 228-239), with `idx` the index the closure
captured: previous/next with a bounds guard, escape closes. -/
def handleKeyDown (thumbs : List Thumb) (idx : Int) (c : KeyCode) (s : VState) : VState :=
  match c with
  | KeyCode.pageUp | KeyCode.arrowLeft =>
    if 0 < idx then (display thumbs (idx - 1) s).state else s
  | KeyCode.pageDown | KeyCode.arrowRight =>
    if idx < (thumbs.length : Int) - 1 then (display thumbs (idx + 1) s).state else s
  | KeyCode.escape => (clearActiveElements s).1
  | KeyCode.other => s

/-- The outcome of a wheel event: the resulting state and whether
`preventDefault()` was called. -/
structure WheelResult where
  state : VState
  prevented : Bool
deriving DecidableEq, Repr

/-- `handleWheel` (lines 241-252): a `ctrlKey` event returns before
`preventDefault()`; otherwise the default is suppressed and a negative
(positive) `deltaY` navigates to the previous (next) index, each under
its bounds guard. -/
def handleWheel (thumbs : List Thumb) (idx : Int) (ctrlKey : Bool) (deltaY : JsNum)
    (s : VState) : WheelResult :=
  if ctrlKey then { state := s, prevented := false }
  else
    let s2 :=
      if JsNum.lt deltaY (JsNum.num 0) then
        (if 0 < idx then (display thumbs (idx - 1) s).state else s)
      else if JsNum.lt (JsNum.num 0) deltaY then
        (if idx < (thumbs.length : Int) - 1 then (display thumbs (idx + 1) s).state else s)
      else s
    { state := s2, prevented := true }

/-- Dispatch of a `window` keydown event to the registered navigation
listener (in every reachable state there is at most one). -/
def dispatchKey (thumbs : List Thumb) (c : KeyCode) (s : VState) : VState :=
  match s.keydownListeners with
  | [] => s
  | (_, idx) :: _ => handleKeyDown thumbs idx c s

/-- Dispatch of a `window` wheel event to the registered navigation
listener; with no listener registered the page's default action runs. -/
def dispatchWheel (thumbs : List Thumb) (ctrlKey : Bool) (deltaY : JsNum)
    (s : VState) : WheelResult :=
  match s.wheelListeners with
  | [] => { state := s, prevented := false }
  | (_, idx) :: _ => handleWheel thumbs idx ctrlKey deltaY s

/-- One completed public operation: a `display` call (thumbnail or
previous/next control click), a close (close control, backdrop click or
any other path into `clearActiveElements`), a keydown, or a wheel event. -/
inductive Op
  | present (i : Int)
  | close
  | key (c : KeyCode)
  | wheel (ctrlKey : Bool) (deltaY : JsNum)

/-- Effect of one public operation on the lifecycle state.  A `present`
with an out-of-range index throws before mutating anything, so the state
is unchanged. -/
def stepOp (thumbs : List Thumb) (s : VState) : Op → VState
  | Op.present i => (display thumbs i s).state
  | Op.close => (clearActiveElements s).1
  | Op.key c => dispatchKey thumbs c s
  | Op.wheel ctrlKey deltaY => (dispatchWheel thumbs ctrlKey deltaY s).state

/-- Running a sequence of public operations from the initial state. -/
def run (thumbs : List Thumb) (ops : List Op) : VState :=
  ops.foldl (stepOp thumbs) initState

/-- Effect of one observable action on the list of overlay nodes attached
to `document.body`. -/
def applyDocAction (attached : List Nat) : Action → List Nat
  | Action.attachNode n => attached ++ [n]
  | Action.detachNode n => attached.erase n
  | _ => attached

/-- All intermediate values of the attached-overlay list along an action
trace, starting from a given list. -/
def docAlong (attached : List Nat) : List Action → List (List Nat)
  | [] => [attached]
  | a :: tr => attached :: docAlong (applyDocAction attached a) tr

/-! ## The lifecycle invariant -/

/-- No overlay is active: nothing attached, no listeners registered. -/
def Closed (s : VState) : Prop :=
  s.activeElements = [] ∧ s.attached = [] ∧ s.currentResizeHandler = none ∧
    s.resizeListeners = [] ∧ s.keydownListeners = [] ∧ s.wheelListeners = []

/-- Exactly one overlay `o` is active, with resize handler `r` and
navigation handlers `k`, `w` bound to index `idx`, and the node's
`_cleanupNav` recording exactly those navigation handlers. -/
def OpenAt (s : VState) (o k w r : Nat) (idx : Int) : Prop :=
  s.activeElements = [o] ∧ s.attached = [o] ∧ s.currentResizeHandler = some r ∧
    s.resizeListeners = [r] ∧ s.keydownListeners = [(k, idx)] ∧
    s.wheelListeners = [(w, idx)] ∧ lookupCleanup s.cleanupNav o = some (k, w)

/-- The lifecycle invariant: the widget is either fully closed or has
exactly one active overlay with exactly its three listeners. -/
def Inv (s : VState) : Prop :=
  Closed s ∨ ∃ o k w r idx, OpenAt s o k w r idx

theorem inv_initState : Inv initState :=
  Or.inl ⟨rfl, rfl, rfl, rfl, rfl, rfl⟩

/-- `clearActiveElements` on a state with an empty active list and no
resize handler changes nothing and performs no action. -/
theorem clear_eq_of_inactive (s : VState)
    (h1 : s.activeElements = []) (h3 : s.currentResizeHandler = none) :
    clearActiveElements s = ({ s with activeElements := [] }, []) := by
  unfold clearActiveElements
  rw [h1]
  simp only [clearLoop]
  split
  · next heq => rw [h3] at heq; exact absurd heq (by simp)
  · rfl

/-- `clearActiveElements` on a state with one active overlay `o` whose
listeners are registered as the invariant describes: it removes the two
navigation listeners, detaches the node, and removes the resize
listener, in that order. -/
theorem clear_eq_of_active (s : VState) (o k w r : Nat) (idx : Int)
    (h1 : s.activeElements = [o]) (h3 : s.currentResizeHandler = some r)
    (h4 : s.resizeListeners = [r]) (h5 : s.keydownListeners = [(k, idx)])
    (h6 : s.wheelListeners = [(w, idx)])
    (h7 : lookupCleanup s.cleanupNav o = some (k, w)) :
    clearActiveElements s =
      ({ s with activeElements := []
              , attached := s.attached.erase o
              , currentResizeHandler := none
              , resizeListeners := []
              , keydownListeners := []
              , wheelListeners := [] },
       [Action.removeWindowListener LKind.keydown k,
        Action.removeWindowListener LKind.wheel w,
        Action.detachNode o,
        Action.removeWindowListener LKind.resize r]) := by
  unfold clearActiveElements
  rw [h1]
  simp only [clearLoop, removeOne, h7, h5, h6, eraseHandler, if_pos rfl, h3, h4]
  simp [List.erase_cons_head]

/-- A valid `display` call starting with no active overlay: the new node
is attached, nothing is torn down, and the four listeners are
registered. -/
theorem display_eq_of_inactive (thumbs : List Thumb) (i : Int) (s : VState) (t : Thumb)
    (h : elsGet thumbs i = some t)
    (h1 : s.activeElements = []) (h3 : s.currentResizeHandler = none) :
    display thumbs i s =
      { state :=
          { attached := s.attached ++ [s.nextId]
          , activeElements := [s.nextId]
          , currentResizeHandler := some (s.nextId + 1)
          , resizeListeners := s.resizeListeners ++ [s.nextId + 1]
          , keydownListeners := s.keydownListeners ++ [(s.nextId + 2, i)]
          , wheelListeners := s.wheelListeners ++ [(s.nextId + 3, i)]
          , cleanupNav := (s.nextId, s.nextId + 2, s.nextId + 3) :: s.cleanupNav
          , nextId := s.nextId + 4 }
      , trace :=
          [Action.attachNode s.nextId,
           Action.addImageListener LKind.load (s.nextId + 1),
           Action.addWindowListener LKind.resize (s.nextId + 1),
           Action.addWindowListener LKind.keydown (s.nextId + 2),
           Action.addWindowListener LKind.wheel (s.nextId + 3)]
      , error := none
      , built := some (buildOverlay thumbs.length i t) } := by
  unfold display
  rw [h]
  have hc := clear_eq_of_inactive
    { s with attached := s.attached ++ [s.nextId], nextId := s.nextId + 4 }
    (by simpa using h1) (by simpa using h3)
  simp only [hc]
  simp

/-- A valid `display` call starting with one active overlay `o`: the new
node is attached first, then `o` and its listeners are torn down, then
the new listeners are registered. -/
theorem display_eq_of_active (thumbs : List Thumb) (i : Int) (s : VState) (t : Thumb)
    (o k w r : Nat) (idx : Int)
    (h : elsGet thumbs i = some t)
    (h1 : s.activeElements = [o]) (h3 : s.currentResizeHandler = some r)
    (h4 : s.resizeListeners = [r]) (h5 : s.keydownListeners = [(k, idx)])
    (h6 : s.wheelListeners = [(w, idx)])
    (h7 : lookupCleanup s.cleanupNav o = some (k, w)) :
    display thumbs i s =
      { state :=
          { attached := (s.attached ++ [s.nextId]).erase o
          , activeElements := [s.nextId]
          , currentResizeHandler := some (s.nextId + 1)
          , resizeListeners := [s.nextId + 1]
          , keydownListeners := [(s.nextId + 2, i)]
          , wheelListeners := [(s.nextId + 3, i)]
          , cleanupNav := (s.nextId, s.nextId + 2, s.nextId + 3) :: s.cleanupNav
          , nextId := s.nextId + 4 }
      , trace :=
          [Action.attachNode s.nextId,
           Action.removeWindowListener LKind.keydown k,
           Action.removeWindowListener LKind.wheel w,
           Action.detachNode o,
           Action.removeWindowListener LKind.resize r,
           Action.addImageListener LKind.load (s.nextId + 1),
           Action.addWindowListener LKind.resize (s.nextId + 1),
           Action.addWindowListener LKind.keydown (s.nextId + 2),
           Action.addWindowListener LKind.wheel (s.nextId + 3)]
      , error := none
      , built := some (buildOverlay thumbs.length i t) } := by
  unfold display
  rw [h]
  have hc := clear_eq_of_active
    { s with attached := s.attached ++ [s.nextId], nextId := s.nextId + 4 }
    o k w r idx
    (by simpa using h1) (by simpa using h3) (by simpa using h4)
    (by simpa using h5) (by simpa using h6) (by simpa using h7)
  simp only [hc]
  simp

/-- An out-of-range `display` call throws before mutating anything. -/
theorem display_eq_of_out_of_range (thumbs : List Thumb) (i : Int) (s : VState)
    (h : elsGet thumbs i = none) :
    display thumbs i s =
      { state := s, trace := [], error := some JsError.typeError, built := none } := by
  unfold display
  rw [h]

/-- `display` preserves the lifecycle invariant, for every index. -/
theorem inv_display (thumbs : List Thumb) (i : Int) (s : VState) (hs : Inv s) :
    Inv (display thumbs i s).state := by
  cases helsGet : elsGet thumbs i with
  | none => rw [display_eq_of_out_of_range thumbs i s helsGet]; exact hs
  | some t =>
    rcases hs with ⟨h1, h2, h3, h4, h5, h6⟩ | ⟨o, k, w, r, idx, h1, h2, h3, h4, h5, h6, h7⟩
    · rw [display_eq_of_inactive thumbs i s t helsGet h1 h3]
      refine Or.inr ⟨s.nextId, s.nextId + 2, s.nextId + 3, s.nextId + 1, i,
        rfl, ?_, rfl, ?_, ?_, ?_, ?_⟩
      · simp [h2]
      · simp [h4]
      · simp [h5]
      · simp [h6]
      · simp [lookupCleanup]
    · rw [display_eq_of_active thumbs i s t o k w r idx helsGet h1 h3 h4 h5 h6 h7]
      refine Or.inr ⟨s.nextId, s.nextId + 2, s.nextId + 3, s.nextId + 1, i,
        rfl, ?_, rfl, rfl, rfl, rfl, ?_⟩
      · simp [h2, List.erase_cons_head]
      · simp [lookupCleanup]

/-- `clearActiveElements` always lands in the fully closed state when the
invariant holds. -/
theorem closed_clear (s : VState) (hs : Inv s) : Closed (clearActiveElements s).1 := by
  rcases hs with ⟨h1, h2, h3, h4, h5, h6⟩ | ⟨o, k, w, r, idx, h1, h2, h3, h4, h5, h6, h7⟩
  · rw [clear_eq_of_inactive s h1 h3]
    exact ⟨rfl, h2, h3, h4, h5, h6⟩
  · rw [clear_eq_of_active s o k w r idx h1 h3 h4 h5 h6 h7]
    refine ⟨rfl, ?_, rfl, rfl, rfl, rfl⟩
    simp [h2, List.erase_cons_head]

theorem inv_clear (s : VState) (hs : Inv s) : Inv (clearActiveElements s).1 :=
  Or.inl (closed_clear s hs)

/-- `handleKeyDown` preserves the lifecycle invariant. -/
theorem inv_handleKeyDown (thumbs : List Thumb) (idx : Int) (c : KeyCode)
    (s : VState) (hs : Inv s) : Inv (handleKeyDown thumbs idx c s) := by
  cases c
  case escape => exact inv_clear s hs
  case other => exact hs
  all_goals simp only [handleKeyDown]
  all_goals split
  all_goals first
    | exact inv_display thumbs _ s hs
    | exact hs

/-- `handleWheel` preserves the lifecycle invariant. -/
theorem inv_handleWheel (thumbs : List Thumb) (idx : Int) (ctrlKey : Bool)
    (deltaY : JsNum) (s : VState) (hs : Inv s) :
    Inv (handleWheel thumbs idx ctrlKey deltaY s).state := by
  unfold handleWheel
  split
  · exact hs
  · simp only
    split
    · split
      · exact inv_display thumbs _ s hs
      · exact hs
    · split
      · split
        · exact inv_display thumbs _ s hs
        · exact hs
      · exact hs

/-- Every public operation preserves the lifecycle invariant. -/
theorem inv_stepOp (thumbs : List Thumb) (s : VState) (op : Op) (hs : Inv s) :
    Inv (stepOp thumbs s op) := by
  cases op with
  | present i => exact inv_display thumbs i s hs
  | close => exact inv_clear s hs
  | key c =>
    simp only [stepOp, dispatchKey]
    split
    · exact hs
    · exact inv_handleKeyDown thumbs _ c s hs
  | wheel ctrlKey deltaY =>
    simp only [stepOp, dispatchWheel]
    split
    · exact hs
    · exact inv_handleWheel thumbs _ ctrlKey deltaY s hs

/-- Every state reachable by a sequence of public operations satisfies
the lifecycle invariant. -/
theorem inv_run (thumbs : List Thumb) (ops : List Op) : Inv (run thumbs ops) := by
  have h : ∀ (l : List Op) (s : VState), Inv s → Inv (l.foldl (stepOp thumbs) s) := by
    intro l
    induction l with
    | nil => intro s hs; exact hs
    | cons op rest ih =>
      intro s hs
      exact ih (stepOp thumbs s op) (inv_stepOp thumbs s op hs)
  exact h ops initState inv_initState

/-! ## Facts about applying a style trace -/

/-- The last value a trace writes to a given slot, if it writes it. -/
def lastWrite : List SEntry → NodeKind × String → Option StyleVal
  | [], _ => none
  | e :: tr, key =>
    match lastWrite tr key with
    | some v => some v
    | none => if key = (e.elem, e.prop) then some e.val else none

/-- After applying a trace, a slot holds the trace's last write to it,
or its previous value when the trace never writes it. -/
theorem applyTrace_lookup (tr : List SEntry) (σ : StyleMap) (key : NodeKind × String) :
    applyTrace tr σ key =
      match lastWrite tr key with
      | some v => some v
      | none => σ key := by
  induction tr generalizing σ with
  | nil => rfl
  | cons e tr ih =>
    have hstep : applyTrace (e :: tr) σ = applyTrace tr (applyEntry σ e) := rfl
    rw [hstep, ih]
    simp only [lastWrite]
    cases h : lastWrite tr key with
    | some v => rfl
    | none =>
      simp only [applyEntry]
      split <;> rfl

/-- Applying the same trace a second time changes nothing. -/
theorem applyTrace_idem (tr : List SEntry) (σ : StyleMap) :
    applyTrace tr (applyTrace tr σ) = applyTrace tr σ := by
  funext key
  rw [applyTrace_lookup, applyTrace_lookup]
  cases h : lastWrite tr key with
  | some v => rfl
  | none => rfl

/-! ## Facts about the layout arithmetic -/

/-- The inverse zoom is always an ordinary finite number: `zoom` is either
a non-zero finite number or an infinity (falsy values fall back to `1`),
so `1 / zoom` is finite. -/
theorem invZoomOf_num (env : LayoutEnv) : ∃ q : ℚ, invZoomOf env = JsNum.num q := by
  unfold invZoomOf zoomOf
  cases h : env.devicePixelRatio with
  | num q =>
    by_cases hq : q = 0
    · subst hq
      exact ⟨1, by norm_num [JsNum.truthy, JsNum.div]⟩
    · exact ⟨1 / q, by simp [JsNum.truthy, hq, JsNum.div]⟩
  | nan => exact ⟨1, by norm_num [JsNum.truthy, JsNum.div]⟩
  | inf => exact ⟨0, by simp [JsNum.truthy, JsNum.div]⟩
  | ninf => exact ⟨0, by simp [JsNum.truthy, JsNum.div]⟩

/-- Multiplying a non-`NaN` number by a positive rational never produces
`NaN`. -/
theorem mul_pos_factor_not_nan (v : JsNum) (q : ℚ) (hv : v.isNaN = false) (hq : 0 < q) :
    (v.mul (JsNum.num q)).isNaN = false := by
  cases v with
  | num a => simp [JsNum.mul, JsNum.isNaN]
  | nan => simp [JsNum.isNaN] at hv
  | inf => simp [JsNum.mul, hq, JsNum.isNaN]
  | ninf => simp [JsNum.mul, hq, JsNum.isNaN]

theorem JsNum.isNaN_num (q : ℚ) : (JsNum.num q).isNaN = false := rfl

theorem JsNum.mul_num (a b : ℚ) :
    (JsNum.num a).mul (JsNum.num b) = JsNum.num (a * b) := rfl

theorem overallChunk_no_nan (env : LayoutEnv) :
    (overallChunk env).all SEntry.notNaN = true := by
  unfold overallChunk
  cases h : env.innerHeight.isNaN <;>
    simp [SEntry.notNaN, StyleVal.numeric, h, JsNum.isNaN_num]

theorem imageChunk_no_nan (env : LayoutEnv) (hmode : env.fitToScreen = false) :
    (imageChunk env).all SEntry.notNaN = true := by
  unfold imageChunk
  rw [hmode]
  cases hW : env.innerWidth.isNaN with
  | false =>
    have l1 := mul_pos_factor_not_nan env.innerWidth widthFactor hW
      (by norm_num [widthFactor])
    cases hH : env.innerHeight.isNaN with
    | false =>
      have l2 := mul_pos_factor_not_nan env.innerHeight heightFactor hH
        (by norm_num [heightFactor])
      simp [SEntry.notNaN, StyleVal.numeric, l1, l2]
    | true => simp [SEntry.notNaN, StyleVal.numeric, l1, hH]
  | true =>
    cases hH : env.innerHeight.isNaN with
    | false =>
      have l2 := mul_pos_factor_not_nan env.innerHeight heightFactor hH
        (by norm_num [heightFactor])
      simp [SEntry.notNaN, StyleVal.numeric, l2, hW]
    | true => simp [SEntry.notNaN, StyleVal.numeric, hW, hH]

theorem figureChunk_no_nan (env : LayoutEnv) :
    (figureChunk env).all SEntry.notNaN = true := by
  simp [figureChunk, topOffset, SEntry.notNaN, StyleVal.numeric, JsNum.isNaN_num]

theorem closeChunk_no_nan (env : LayoutEnv) :
    (closeChunk env).all SEntry.notNaN = true := by
  obtain ⟨q0, hq0⟩ := invZoomOf_num env
  simp [closeChunk, hq0, SEntry.notNaN, StyleVal.numeric, JsNum.isNaN_num]

theorem captionChunk_no_nan (env : LayoutEnv) :
    (captionChunk env).all SEntry.notNaN = true := by
  obtain ⟨q0, hq0⟩ := invZoomOf_num env
  simp [captionChunk, hq0, SEntry.notNaN, StyleVal.numeric, JsNum.isNaN_num]

theorem prevChunk_no_nan (env : LayoutEnv) (hasPrev : Bool) :
    (prevChunk env hasPrev).all SEntry.notNaN = true := by
  obtain ⟨q0, hq0⟩ := invZoomOf_num env
  cases hasPrev <;>
    simp [prevChunk, hq0, SEntry.notNaN, StyleVal.numeric, JsNum.isNaN_num, JsNum.mul_num]

theorem nextChunk_no_nan (env : LayoutEnv) (hasNext : Bool) :
    (nextChunk env hasNext).all SEntry.notNaN = true := by
  obtain ⟨q0, hq0⟩ := invZoomOf_num env
  cases hasNext <;>
    simp [nextChunk, hq0, SEntry.notNaN, StyleVal.numeric, JsNum.isNaN_num, JsNum.mul_num]

/-! ## Concrete fixtures used by witnesses and counterexamples -/

/-- A thumbnail link with no contained image and a percent-escaped file
url. -/
def sunsetThumb : Thumb :=
  { attrHref := some "https://x.test/photos/sunset%20view.jpg".toList
  , resolvedHref := "https://x.test/photos/sunset%20view.jpg".toList
  , hasImg := false, imgAlt := [] }

/-- A thumbnail link whose url is a directory url ending in a slash. -/
def albumThumb : Thumb :=
  { attrHref := some "https://x.test/albums/2024/".toList
  , resolvedHref := "https://x.test/albums/2024/".toList
  , hasImg := false, imgAlt := [] }

/-- Two scanned thumbnails. -/
def demoThumbs2 : List Thumb := [sunsetThumb, sunsetThumb]

/-- Three scanned thumbnails. -/
def demoThumbs3 : List Thumb := [sunsetThumb, sunsetThumb, sunsetThumb]

/-- A layout environment in fit-to-screen mode whose viewport height is
`NaN` (metrics transiently unavailable). -/
def nanHeightEnv : LayoutEnv :=
  { innerWidth := JsNum.num 1024, innerHeight := JsNum.nan
  , devicePixelRatio := JsNum.num 1, fitToScreen := true, showFilenames := true
  , naturalWidth := JsNum.num 0, naturalHeight := JsNum.num 0 }

/-- A layout environment in the default bounded mode. -/
def boundedEnv : LayoutEnv :=
  { innerWidth := JsNum.num 1024, innerHeight := JsNum.num 768
  , devicePixelRatio := JsNum.num 1, fitToScreen := false, showFilenames := true
  , naturalWidth := JsNum.num 640, naturalHeight := JsNum.num 480 }

/-- A url that ends in a trailing slash yields nothing after its last
slash. -/
theorem afterLastSlash_of_trailing (url : List Char) (h : url.getLast? = some '/') :
    afterLastSlash url = [] := by
  unfold afterLastSlash
  cases hr : url.reverse with
  | nil => simp
  | cons c rest =>
    have hc : c = '/' := by
      have h2 := List.head?_reverse url
      rw [hr] at h2
      simp at h2
      rw [h] at h2
      exact Option.some_inj.mp h2
    subst hc
    simp [List.takeWhile]

/-! ## Claim theorems -/

/-- **C7.** For every thumbnail, the scanner's display label prefers the
explicit caption/alt text; when absent, it is derived from the `href`
attribute by first stripping a trailing slash, then taking the substring
after the last `'/'`, then percent-decoding; in particular the url
`.../photos/sunset%20view.jpg` yields the label `sunset view.jpg` and the
url `.../albums/2024/` yields the label `2024`. -/
theorem c7_scanner_label (t : Thumb) (url : List Char) :
    (t.hasImg = true → t.imgAlt ≠ [] → scanLabelName t = t.imgAlt)
    ∧ ((t.hasImg = false ∨ t.imgAlt = []) → t.attrHref = some url → url ≠ [] →
        scanLabelName t
          = decodeURIComponent (afterLastSlash (stripTrailingSlash url)))
    ∧ scanLabelName sunsetThumb = "sunset view.jpg".toList
    ∧ scanLabelName albumThumb = "2024".toList := by
  refine ⟨?_, ?_, by decide, by decide⟩
  · intro himg halt
    rw [scanLabelName, if_pos ⟨himg, halt⟩]
  · intro hfall href hne
    have hcond : ¬(t.hasImg = true ∧ t.imgAlt ≠ []) := by
      rcases hfall with hfall | hfall <;> simp [hfall]
    rw [scanLabelName, if_neg (by simpa using hcond), href]
    simp [hne]

/-- **C7 witness.** The label derivation applied to the demo thumbnail
with no caption and a percent-escaped url. -/
theorem c7_scanner_label_witness :
    scanLabelName sunsetThumb
      = decodeURIComponent (afterLastSlash
          (stripTrailingSlash "https://x.test/photos/sunset%20view.jpg".toList))
    ∧ scanLabelName sunsetThumb = "sunset view.jpg".toList :=
  ⟨(c7_scanner_label sunsetThumb
      "https://x.test/photos/sunset%20view.jpg".toList).2.1
      (Or.inl rfl) rfl (by decide),
   (c7_scanner_label sunsetThumb [] ).2.2.1⟩

/-- **C10.** For a thumbnail whose (resolved) url ends with `'/'` and that
has no alt text, the overlay caption built by `present` is empty: unlike
the scanner's label derivation, `getCaption` takes the substring after the
last `'/'` without stripping a trailing slash first — as the concrete
contrast shows, the same directory url gives scanner label `2024` but an
empty overlay caption. -/
theorem c10_caption_trailing_slash (n : Nat) (i : Int) (t : Thumb)
    (hslash : t.resolvedHref.getLast? = some '/')
    (halt : t.hasImg = false ∨ t.imgAlt = []) :
    (buildOverlay n i t).captionHTML = []
    ∧ (buildOverlay 1 0 albumThumb).captionHTML = []
    ∧ scanLabelName albumThumb = "2024".toList := by
  refine ⟨?_, by decide, by decide⟩
  unfold buildOverlay
  simp only
  rcases halt with halt | halt
  · rw [halt]
    simp only [Bool.false_eq_true, if_false, captionText]
    rw [afterLastSlash_of_trailing t.resolvedHref hslash]
    rfl
  · cases himg : t.hasImg
    · simp only [Bool.false_eq_true, if_false, captionText]
      rw [afterLastSlash_of_trailing t.resolvedHref hslash]
      rfl
    · simp only [if_true, captionText, halt]
      rw [if_neg (by simp), afterLastSlash_of_trailing t.resolvedHref hslash]
      rfl

/-- **C10 witness.** The directory-url thumbnail at a concrete index. -/
theorem c10_caption_trailing_slash_witness :
    (buildOverlay 1 0 albumThumb).captionHTML = [] :=
  (c10_caption_trailing_slash 1 0 albumThumb (by decide) (Or.inl rfl)).1

/-- **C6.** The overlay built by `present(i)` contains a previous control
iff `i > 0` and a next control iff `i` is strictly below the last valid
index; with three thumbnails, `present(0)` has no previous control and a
next control, and `present(2)` has a previous control and no next
control. -/
theorem c6_nav_controls (thumbs : List Thumb) (i : Int) (s : VState) (t : Thumb)
    (h : elsGet thumbs i = some t) :
    (display thumbs i s).built = some (buildOverlay thumbs.length i t)
    ∧ (NodeKind.prevCtrl ∈ (buildOverlay thumbs.length i t).overallChildren ↔ 0 < i)
    ∧ (NodeKind.nextCtrl ∈ (buildOverlay thumbs.length i t).overallChildren
        ↔ i < (thumbs.length : Int) - 1)
    ∧ NodeKind.prevCtrl ∉ (buildOverlay 3 0 t).overallChildren
    ∧ NodeKind.nextCtrl ∈ (buildOverlay 3 0 t).overallChildren
    ∧ NodeKind.prevCtrl ∈ (buildOverlay 3 2 t).overallChildren
    ∧ NodeKind.nextCtrl ∉ (buildOverlay 3 2 t).overallChildren := by
  refine ⟨?_, ?_, ?_, ?_, ?_, ?_, ?_⟩
  · unfold display
    rw [h]
  · by_cases hp : 0 < i <;> by_cases hn : i < (thumbs.length : Int) - 1 <;>
      simp [buildOverlay, hp, hn]
  · by_cases hp : 0 < i <;> by_cases hn : i < (thumbs.length : Int) - 1 <;>
      simp [buildOverlay, hp, hn]
  · simp [buildOverlay]
  · simp [buildOverlay]
  · simp [buildOverlay]
  · simp [buildOverlay]

/-- **C6 witness.** The middle of three thumbnails has both controls. -/
theorem c6_nav_controls_witness :
    (display demoThumbs3 1 initState).built
      = some (buildOverlay demoThumbs3.length 1 sunsetThumb)
    ∧ (NodeKind.prevCtrl ∈ (buildOverlay demoThumbs3.length 1 sunsetThumb).overallChildren
        ↔ 0 < (1 : Int))
    ∧ (NodeKind.nextCtrl ∈ (buildOverlay demoThumbs3.length 1 sunsetThumb).overallChildren
        ↔ (1 : Int) < (demoThumbs3.length : Int) - 1) := by
  have h := c6_nav_controls demoThumbs3 1 initState sunsetThumb (by decide)
  exact ⟨h.1, h.2.1, h.2.2.1⟩

/-- **C8.** Layout is idempotent: one `style` invocation is a pure
function of its sampled inputs, so running it a second time with the same
viewport metrics, image metrics, pixel ratio and flags writes the same
values and leaves the applied geometry unchanged. -/
theorem c8_layout_idempotent (env : LayoutEnv) (hasPrev hasNext : Bool) (σ : StyleMap) :
    applyTrace (styleTrace env hasPrev hasNext)
        (applyTrace (styleTrace env hasPrev hasNext) σ)
      = applyTrace (styleTrace env hasPrev hasNext) σ :=
  applyTrace_idem (styleTrace env hasPrev hasNext) σ

/-- **C5 counterexample.** In fit-to-screen mode with a `NaN` viewport
height, the layout pass assigns non-finite numeric style values (for
example `image.style.maxHeight = NaN + 'px'`): the claim that every
non-finite computed value is skipped is false. -/
theorem c5_nonfinite_counterexample :
    (styleTrace nanHeightEnv false false).all SEntry.finiteNum = false
    ∧ (SEntry.mk NodeKind.image "maxHeight" (StyleVal.px JsNum.nan))
        ∈ styleTrace nanHeightEnv false false := by
  constructor
  · decide
  · decide

/-- **C5 (amended).** In the default bounded layout mode, the `isNaN`
guards do ensure that no `NaN` is ever assigned: every numeric style
value written by a bounded-mode layout pass is non-`NaN`.  (Fit-to-screen
mode applies the `availableHeight`-derived values unguarded, and the
guards pass infinite values through in both modes.) -/
theorem c5_bounded_mode_no_nan (env : LayoutEnv) (hasPrev hasNext : Bool)
    (hmode : env.fitToScreen = false) :
    (styleTrace env hasPrev hasNext).all SEntry.notNaN = true := by
  unfold styleTrace
  simp [List.all_append, overallChunk_no_nan, imageChunk_no_nan env hmode,
    figureChunk_no_nan, closeChunk_no_nan, captionChunk_no_nan,
    prevChunk_no_nan, nextChunk_no_nan]

/-- **C5 witness.** A concrete bounded-mode layout pass assigns no `NaN`. -/
theorem c5_bounded_mode_no_nan_witness :
    (styleTrace boundedEnv true true).all SEntry.notNaN = true :=
  c5_bounded_mode_no_nan boundedEnv true true rfl

/-- **C9.** After every sequence of completed public operations
(`present`, close, keydown, wheel), the active-element list holds at most
one overlay node, the resize listener is registered iff an overlay is
active, and the keydown and wheel navigation listeners are each
registered iff an overlay is active. -/
theorem c9_listener_invariant (thumbs : List Thumb) (ops : List Op) :
    (run thumbs ops).activeElements.length ≤ 1
    ∧ ((run thumbs ops).resizeListeners ≠ [] ↔ (run thumbs ops).activeElements ≠ [])
    ∧ ((run thumbs ops).keydownListeners ≠ [] ↔ (run thumbs ops).activeElements ≠ [])
    ∧ ((run thumbs ops).wheelListeners ≠ [] ↔ (run thumbs ops).activeElements ≠ []) := by
  rcases inv_run thumbs ops with ⟨h1, h2, h3, h4, h5, h6⟩
    | ⟨o, k, w, r, idx, h1, h2, h3, h4, h5, h6, h7⟩
  · rw [h1, h4, h5, h6]
    simp
  · rw [h1, h4, h5, h6]
    simp

/-- **C3.** For every valid index `i`, `present(i)` followed by close —
from any reachable state — leaves no overlay node attached to the
document, no resize listener, and no keydown or wheel navigation listener
on the window. -/
theorem c3_present_close_clean (thumbs : List Thumb) (ops : List Op) (i : Int)
    (h0 : 0 ≤ i) (h1 : i < (thumbs.length : Int)) :
    (run thumbs (ops ++ [Op.present i, Op.close])).attached = []
    ∧ (run thumbs (ops ++ [Op.present i, Op.close])).activeElements = []
    ∧ (run thumbs (ops ++ [Op.present i, Op.close])).resizeListeners = []
    ∧ (run thumbs (ops ++ [Op.present i, Op.close])).keydownListeners = []
    ∧ (run thumbs (ops ++ [Op.present i, Op.close])).wheelListeners = [] := by
  have hrw : run thumbs (ops ++ [Op.present i, Op.close])
      = (clearActiveElements (display thumbs i (run thumbs ops)).state).1 := by
    unfold run
    rw [List.foldl_append]
    rfl
  have hinv : Inv (display thumbs i (run thumbs ops)).state :=
    inv_display thumbs i (run thumbs ops) (inv_run thumbs ops)
  have hc := closed_clear (display thumbs i (run thumbs ops)).state hinv
  rw [hrw]
  exact ⟨hc.2.1, hc.1, hc.2.2.2.1, hc.2.2.2.2.1, hc.2.2.2.2.2⟩

/-- **C3 witness.** Presenting the first of two thumbnails and closing. -/
theorem c3_present_close_clean_witness :
    (run demoThumbs2 ([] ++ [Op.present 0, Op.close])).attached = []
    ∧ (run demoThumbs2 ([] ++ [Op.present 0, Op.close])).resizeListeners = []
    ∧ (run demoThumbs2 ([] ++ [Op.present 0, Op.close])).keydownListeners = []
    ∧ (run demoThumbs2 ([] ++ [Op.present 0, Op.close])).wheelListeners = [] := by
  have h := c3_present_close_clean demoThumbs2 [] 0 (by decide) (by decide)
  exact ⟨h.1, h.2.2.1, h.2.2.2.1, h.2.2.2.2⟩

/-- **C2 counterexample.** With one scanned thumbnail, `present(1)` is not
a silent no-op: `els[1]` is `undefined` and reading `.href` throws a
`TypeError`. -/
theorem c2_out_of_range_counterexample :
    (display [sunsetThumb] 1 initState).error = some JsError.typeError := by
  decide

/-- **C2 (amended).** For every integer index outside `0 .. n-1`,
`present(index)` throws a `TypeError` instead of returning normally; the
throw happens before any mutation, so the overlay state, the document and
all registered listeners are left unchanged. -/
theorem c2_out_of_range_throws (thumbs : List Thumb) (i : Int) (s : VState)
    (h : i < 0 ∨ (thumbs.length : Int) ≤ i) :
    display thumbs i s
      = { state := s, trace := [], error := some JsError.typeError, built := none } := by
  apply display_eq_of_out_of_range
  unfold elsGet
  rcases h with h | h
  · rw [if_neg (by omega)]
  · rw [if_pos (by omega)]
    exact List.get?_eq_none.mpr (by omega)

/-- **C2 witness.** A negative index on a one-thumbnail gallery. -/
theorem c2_out_of_range_throws_witness :
    display [sunsetThumb] (-1) initState
      = { state := initState, trace := [], error := some JsError.typeError
        , built := none } :=
  c2_out_of_range_throws [sunsetThumb] (-1) initState (Or.inl (by decide))

/-- **C1 counterexample.** Presenting index 0 and then index 1 on a
two-thumbnail gallery: during the second `present`, the new overlay node
is appended to the document (line 212) before `clearActiveElements`
detaches the previous one (line 215), so at an intermediate point two
overlay nodes are attached, and in the invocation's action trace the
attach of the new node strictly precedes the detach of the old one —
the claimed teardown-before-attach ordering is false. -/
theorem c1_overlap_counterexample :
    ((docAlong (display demoThumbs2 0 initState).state.attached
        (display demoThumbs2 1 (display demoThumbs2 0 initState).state).trace).any
      (fun l => 2 ≤ l.length)) = true
    ∧ List.indexOf (Action.attachNode 4)
        (display demoThumbs2 1 (display demoThumbs2 0 initState).state).trace
      < List.indexOf (Action.detachNode 0)
        (display demoThumbs2 1 (display demoThumbs2 0 initState).state).trace := by
  constructor
  · decide
  · decide

/-- **C1 (amended).** Within a `present(i)` invocation on an already-open
overlay, the new overlay node is attached to the document strictly before
the previous overlay node and its listeners are detached (two overlay
nodes are transiently attached); at the end of the invocation exactly the
new node is attached, and after every completed operation at most one
overlay node is attached. -/
theorem c1_attach_precedes_teardown (thumbs : List Thumb) (i : Int) (s : VState)
    (t : Thumb) (o k w r : Nat) (idx : Int)
    (h : elsGet thumbs i = some t) (hopen : OpenAt s o k w r idx) :
    (display thumbs i s).trace.head? = some (Action.attachNode s.nextId)
    ∧ Action.detachNode o ∈ (display thumbs i s).trace.tail
    ∧ Action.removeWindowListener LKind.keydown k ∈ (display thumbs i s).trace.tail
    ∧ Action.removeWindowListener LKind.wheel w ∈ (display thumbs i s).trace.tail
    ∧ Action.removeWindowListener LKind.resize r ∈ (display thumbs i s).trace.tail
    ∧ (display thumbs i s).state.attached = [s.nextId] := by
  obtain ⟨h1, h2, h3, h4, h5, h6, h7⟩ := hopen
  rw [display_eq_of_active thumbs i s t o k w r idx h h1 h3 h4 h5 h6 h7]
  refine ⟨rfl, ?_, ?_, ?_, ?_, ?_⟩ <;>
    simp [h2, List.erase_cons_head]

/-- **C1 witness.** The second `present` on the two-thumbnail gallery. -/
theorem c1_attach_precedes_teardown_witness :
    (display demoThumbs2 1 (display demoThumbs2 0 initState).state).trace.head?
      = some (Action.attachNode (display demoThumbs2 0 initState).state.nextId)
    ∧ (display demoThumbs2 1 (display demoThumbs2 0 initState).state).state.attached
      = [(display demoThumbs2 0 initState).state.nextId] := by
  have h := c1_attach_precedes_teardown demoThumbs2 1
    (display demoThumbs2 0 initState).state sunsetThumb 0 2 3 1 0 (by decide)
    ⟨by decide, by decide, by decide, by decide, by decide, by decide, by decide⟩
  exact ⟨h.1, h.2.2.2.2.2⟩

/-- `JsNum.lt` is asymmetric. -/
theorem jslt_asymm (a b : JsNum) (h : JsNum.lt a b = true) : JsNum.lt b a = false := by
  cases a <;> cases b <;> simp_all [JsNum.lt] <;> linarith

/-- **C4 counterexample.** While an overlay is open (its wheel listener is
registered), a wheel event with the zoom-intent modifier (ctrl) held does
not have its default action suppressed: `handleWheel` returns before
`preventDefault()`, so the default scroll action is not suppressed for
every wheel event. -/
theorem c4_ctrl_wheel_counterexample :
    (display demoThumbs2 0 initState).state.wheelListeners ≠ []
    ∧ (dispatchWheel demoThumbs2 true (JsNum.num (-3))
        (display demoThumbs2 0 initState).state).prevented = false := by
  constructor
  · decide
  · decide

/-- **C4 (amended).** While an overlay is open, a wheel event with the
zoom-intent modifier held is ignored entirely — including not suppressing
the default scroll action; for every other wheel event the default action
is suppressed, a negative vertical delta invokes `present(index-1)`
(no-op when `index` is 0) and a positive one invokes `present(index+1)`
(no-op when `index` is the last valid index). -/
theorem c4_wheel_navigation (thumbs : List Thumb) (idx : Int) (ctrlKey : Bool)
    (deltaY : JsNum) (s : VState) :
    (ctrlKey = true →
      handleWheel thumbs idx ctrlKey deltaY s = { state := s, prevented := false })
    ∧ (ctrlKey = false →
        (handleWheel thumbs idx ctrlKey deltaY s).prevented = true)
    ∧ (ctrlKey = false → JsNum.lt deltaY (JsNum.num 0) = true → 0 < idx →
        (handleWheel thumbs idx ctrlKey deltaY s).state
          = (display thumbs (idx - 1) s).state)
    ∧ (ctrlKey = false → JsNum.lt deltaY (JsNum.num 0) = true → ¬0 < idx →
        (handleWheel thumbs idx ctrlKey deltaY s).state = s)
    ∧ (ctrlKey = false → JsNum.lt (JsNum.num 0) deltaY = true →
        idx < (thumbs.length : Int) - 1 →
        (handleWheel thumbs idx ctrlKey deltaY s).state
          = (display thumbs (idx + 1) s).state)
    ∧ (ctrlKey = false → JsNum.lt (JsNum.num 0) deltaY = true →
        ¬idx < (thumbs.length : Int) - 1 →
        (handleWheel thumbs idx ctrlKey deltaY s).state = s) := by
  refine ⟨?_, ?_, ?_, ?_, ?_, ?_⟩
  · intro hc
    rw [handleWheel, if_pos hc]
  · intro hc
    subst hc
    simp only [handleWheel, Bool.false_eq_true, if_false]
  · intro hc hneg hidx
    subst hc
    simp only [handleWheel, Bool.false_eq_true, if_false, hneg, if_true, hidx]
  · intro hc hneg hidx
    subst hc
    simp only [handleWheel, Bool.false_eq_true, if_false, hneg, if_true, hidx]
  · intro hc hpos hidx
    subst hc
    have hneg : JsNum.lt deltaY (JsNum.num 0) = false :=
      jslt_asymm (JsNum.num 0) deltaY hpos
    simp only [handleWheel, Bool.false_eq_true, if_false, hneg, hpos, if_true, hidx]
  · intro hc hpos hidx
    subst hc
    have hneg : JsNum.lt deltaY (JsNum.num 0) = false :=
      jslt_asymm (JsNum.num 0) deltaY hpos
    simp only [handleWheel, Bool.false_eq_true, if_false, hneg, hpos, if_true, hidx]

/-- **C4 witness.** On the open overlay of the two-thumbnail gallery:
a ctrl-wheel is ignored, a plain wheel-down navigates to the next index. -/
theorem c4_wheel_navigation_witness :
    handleWheel demoThumbs2 0 true (JsNum.num 3) (display demoThumbs2 0 initState).state
      = { state := (display demoThumbs2 0 initState).state, prevented := false }
    ∧ (handleWheel demoThumbs2 0 false (JsNum.num 3)
        (display demoThumbs2 0 initState).state).state
      = (display demoThumbs2 1 (display demoThumbs2 0 initState).state).state := by
  constructor
  · exact (c4_wheel_navigation demoThumbs2 0 true (JsNum.num 3)
      (display demoThumbs2 0 initState).state).1 rfl
  · exact (c4_wheel_navigation demoThumbs2 0 false (JsNum.num 3)
      (display demoThumbs2 0 initState).state).2.2.2.2.1 rfl (by decide) (by decide)

end ThumbnailViewer
